import Mathlib

/-!
Verification of the document-status polling core, the upload validation and
the chat error handling of the meet-minutes application, against a shallow
embedding of `src/frontend/src/App.tsx` and
`src/frontend/src/components/DocumentUpload.tsx`, together with a
spec-modelled server-side ingestion state machine (the FastAPI server code is
not present in the repository snapshot, only its README).
-/

/-- Client-side `Document` record, from the `Document` values built in
`App.tsx` (fields used at lines 29-38 and 54-62): id, name, type
(pdf or txt), size, uploadedAt (a timestamp, modelled as a `Nat`), status
(the code compares status strings directly, so it is a `String` here),
progress percentage and optional error message. -/
structure Doc where
  id : String
  name : String
  mime : String
  size : Nat
  uploadedAt : Nat
  status : String
  progress : Nat
  error : Option String
deriving DecidableEq, Repr

/-- A file handed to the upload components: name, MIME type and size in
bytes, the three `File` fields the frontend code reads. -/
structure UFile where
  name : String
  ftype : String
  size : Nat
deriving DecidableEq, Repr

/-- One entry of the JSON payload of `GET /documents`, as destructured by
`loadExistingDocuments` in `App.tsx` lines 29-38. -/
structure ServerDocPayload where
  id : String
  filename : String
  size : Nat
  uploaded_at : Nat
  status : String
  error : Option String
deriving DecidableEq, Repr

/-- The `loadExistingDocuments` mapping (App.tsx lines 29-38): each payload
entry becomes a `Doc` with `progress = 100` exactly when the status is
`ready` (else 0) and the `error` field copied verbatim from the payload. -/
def mapServerDoc (doc : ServerDocPayload) : Doc :=
  { id := doc.id
    name := doc.filename
    mime := if doc.filename.toLower.endsWith ".pdf" then "pdf" else "txt"
    size := doc.size
    uploadedAt := doc.uploaded_at
    status := doc.status
    progress := if doc.status = "ready" then 100 else 0
    error := doc.error }

/-- Optimistic local document created by `handleDocumentUpload`
(App.tsx lines 54-62): status `uploading`, progress 0, no error. `now` is
the `Date.now()` timestamp and `newId` the randomly generated id. -/
def mkUploadDoc (now : Nat) (newId : String) (file : UFile) : Doc :=
  { id := newId
    name := file.name
    mime := if file.name.toLower.endsWith ".pdf" then "pdf" else "txt"
    size := file.size
    uploadedAt := now
    status := "uploading"
    progress := 0
    error := none }

/-- Update applied to each freshly uploaded document on upload success
(App.tsx lines 84-89): adopt the backend id when present, status
`processing`, progress 50. -/
def uploadSuccessUpdate (backendId : Option String) (doc : Doc) : Doc :=
  { doc with
    id := backendId.getD doc.id
    status := "processing"
    progress := 50 }

/-- Update applied to each freshly uploaded document when the upload request
fails (App.tsx lines 108-112 for an HTTP failure with message
"Upload failed", lines 118-122 for a thrown network error with message
"Network error"): status `error` and the error message set; the progress
field is left as it was. -/
def uploadFailureUpdate (msg : String) (doc : Doc) : Doc :=
  { doc with status := "error", error := some msg }

/-! ## The status poller (`pollDocumentStatus`, App.tsx lines 127-168) -/

/-- The `maxPolls` constant of `pollDocumentStatus` (App.tsx line 128). -/
def maxPolls : Nat := 30

/-- The `setTimeout(poll, 10000)` delay of App.tsx line 159, in ms. -/
def pollIntervalMs : Nat := 10000

/-- Time (ms since the session start) at which the k-th status fetch of a
polling session is issued: `poll()` is invoked immediately at App.tsx line
167, and every later fetch is scheduled `pollIntervalMs` after the previous
one by `setTimeout(poll, 10000)` (line 159), so fetch k fires at
`(k - 1) * pollIntervalMs`. -/
def fetchTimeMs (k : Nat) : Nat := (k - 1) * pollIntervalMs

/-- Outcome of one status fetch, as discriminated by the `poll` closure:
an HTTP-ok response carrying a `{status, error}` JSON body, a response with
`response.ok` false, or a thrown network error landing in the catch block. -/
inductive FetchResult where
  | ok (status : String) (error : Option String)
  | httpError
  | networkError
deriving DecidableEq, Repr

/-- Per-document update of one successful poll tick (App.tsx lines 140-149):
the document whose id matches gets the fetched status and error and
progress 100 exactly when the fetched status is `ready` (else 75); any
other document is returned unchanged. -/
def pollUpdateDoc (documentId : String) (st : String) (err : Option String)
    (doc : Doc) : Doc :=
  if doc.id = documentId then
    { doc with
      status := st
      error := err
      progress := if st = "ready" then 100 else 75 }
  else doc

/-- State of one polling session together with the client document list:
the `pollCount` counter, the shared `documents` array, and whether a next
tick is scheduled (`active`). -/
structure PollState where
  pollCount : Nat
  docs : List Doc
  active : Bool
deriving DecidableEq, Repr

/-- One execution of the `poll` closure (App.tsx lines 131-165) given the
fetch outcome. On an ok response the document list is updated, then: a
terminal fetched status (`ready` or `error`) returns without rescheduling;
otherwise `pollCount` is incremented and a next tick is scheduled only while
`pollCount < maxPolls`. A non-ok response falls through the `if` with no
update, no increment and no reschedule; a thrown error reaches the catch
block which only logs, likewise ending the session. -/
def pollTick (documentId : String) (s : PollState) (r : FetchResult) :
    PollState :=
  match r with
  | .ok st err =>
    let docs2 := s.docs.map (pollUpdateDoc documentId st err)
    if st = "ready" ∨ st = "error" then
      { s with docs := docs2, active := false }
    else
      let c := s.pollCount + 1
      { pollCount := c, docs := docs2, active := decide (c < maxPolls) }
  | .httpError => { s with active := false }
  | .networkError => { s with active := false }

/-- A whole polling session: consume fetch outcomes from `rs` one tick at a
time while a tick is scheduled, returning the final state and the number of
status fetches actually issued. -/
def runPoll (documentId : String) : PollState → List FetchResult →
    PollState × Nat
  | s, [] => (s, 0)
  | s, r :: rs =>
    if s.active then
      let out := runPoll documentId (pollTick documentId s r) rs
      (out.1, out.2 + 1)
    else (s, 0)

/-- Initial state of a polling session over document list `docs`:
`pollCount = 0` (App.tsx line 129) and a first tick about to run. -/
def initPollState (docs : List Doc) : PollState :=
  { pollCount := 0, docs := docs, active := true }

/-- The invariant of spec section 3 on a client document: the error field is
set iff the status is `error`, and progress is 100 iff the status is
`ready`. -/
def docStateInvariant (d : Doc) : Prop :=
  (d.error.isSome ↔ d.status = "error") ∧ (d.progress = 100 ↔ d.status = "ready")

instance (d : Doc) : Decidable (docStateInvariant d) := by
  unfold docStateInvariant; infer_instance

/-! ## Upload validation (`DocumentUpload.tsx`) -/

/-- The `allowedTypes` list of `validateFile` (DocumentUpload.tsx line 14). -/
def allowedTypes : List String := ["application/pdf", "text/plain"]

/-- The `maxSize` constant of `validateFile` (DocumentUpload.tsx line 15): 10 MiB. -/
def maxSize : Nat := 10 * 1024 * 1024

/-- Embedding of `validateFile` (DocumentUpload.tsx lines 13-28). The source returns a
boolean and records the failure message via `setUploadError`; both effects
are captured in one `Except`: `.error msg` when the file is refused with
message `msg`, `.ok ()` when it passes both checks. -/
def validateFile (file : UFile) : Except String Unit :=
  if (allowedTypes.contains file.ftype) = false then
    Except.error "Only PDF and TXT files are supported"
  else if maxSize < file.size then
    Except.error "File size must be less than 10MB"
  else Except.ok ()

/-- The failure message of a validation outcome, if any. -/
def validationMessage : Except String Unit → Option String
  | .error m => some m
  | .ok _ => none

/-- The dropzone-level rejection message of `onDrop`
(DocumentUpload.tsx line 34). -/
def rejectionMessage : String :=
  "Some files were rejected. Please check file type and size."

/-- Embedding of `onDrop` (DocumentUpload.tsx lines 30-43), returning the list of files
handed to `onUpload` together with the final `uploadError` value. If any
file was rejected by the dropzone the whole drop is discarded with the
generic message. Otherwise the accepted files are filtered through
`validateFile`; each failing file overwrites `uploadError` in order, so the
final message is the last failure (or none). `onUpload` is only invoked when
the filtered list is non-empty; an empty first component means nothing is
forwarded either way. -/
def onDrop (acceptedFiles rejectedFiles : List UFile) :
    List UFile × Option String :=
  if rejectedFiles.length > 0 then ([], some rejectionMessage)
  else
    ((acceptedFiles.filter fun f => (validateFile f).isOk),
     (acceptedFiles.filterMap fun f => validationMessage (validateFile f)).getLast?)

/-! ## Chat (`handleSendMessage`, App.tsx lines 187-255) -/

/-- A chat message as far as the claims are concerned: its role (`user` or
`assistant`), its content and its optional source list. The `id` and
`timestamp` fields of the source are wall-clock values irrelevant to the
claims and are elided. -/
structure ChatMsg where
  mtype : String
  content : String
  sources : Option (List String)
deriving DecidableEq, Repr

/-- The user message appended at the start of `handleSendMessage`
(App.tsx lines 188-193). -/
def userChatMsg (content : String) : ChatMsg :=
  { mtype := "user", content := content, sources := none }

/-- Outcome of a `/chat` request as discriminated by `handleSendMessage`:
success (`response.ok && result.success`, carrying answer and sources), a
parsed response that is not a success (carrying the optional `result.error`
message), or a thrown network/parse error landing in the catch block. -/
inductive ChatResult where
  | success (answer : String) (sources : List String)
  | serverError (errMsg : Option String)
  | networkFailure
deriving DecidableEq, Repr

/-- The chat-related part of the app state touched by `handleSendMessage`. -/
structure ChatState where
  messages : List ChatMsg
  isLoading : Bool
  selectedSources : List String
deriving DecidableEq, Repr

/-- Embedding of `handleSendMessage` (App.tsx lines 187-255): append the user message and
set `isLoading`; then, per outcome, append exactly one assistant message
(the answer on success, `result.error` or a fixed apology on a server
error, a fixed connection apology on a network failure) and clear
`isLoading`; on success `selectedSources` is replaced by the sources. -/
def handleSendMessage (message : String) (r : ChatResult) (s : ChatState) :
    ChatState :=
  let s1 : ChatState :=
    { s with messages := s.messages ++ [userChatMsg message], isLoading := true }
  match r with
  | .success answer sources =>
    { s1 with
      messages := s1.messages ++
        [{ mtype := "assistant", content := answer, sources := some sources }]
      isLoading := false
      selectedSources := sources }
  | .serverError errMsg =>
    { s1 with
      messages := s1.messages ++
        [{ mtype := "assistant"
           content := errMsg.getD "Sorry, I encountered an error. Please try again."
           sources := none }]
      isLoading := false }
  | .networkFailure =>
    { s1 with
      messages := s1.messages ++
        [{ mtype := "assistant"
           content := "Sorry, I couldn\x27t connect to the server. Please try again."
           sources := none }]
      isLoading := false }

/-! ## Server-side ingestion state machine

The FastAPI server sources are not part of the repository snapshot (only
`src/server/README.md`), so the state machine is modelled from spec
sections 3, 4.1 and 8. -/

/-- Modelled from the spec: the document status set of the server ingestion
state machine (spec section 3), `uploading → processing → chunking →
embedding → ready`, plus the `error` state. -/
inductive IngestStatus where
  | uploading
  | processing
  | chunking
  | embedding
  | ready
  | error
deriving DecidableEq, Repr

/-- Modelled from the spec: `ready` and `error` are the terminal states
(spec section 3). -/
def isTerminal : IngestStatus → Bool
  | .ready => true
  | .error => true
  | _ => false

/-- Modelled from the spec: which statuses are reachable in one step — the
non-error path is strictly linear and `error` is reachable from every
non-terminal state; nothing is reachable from a terminal state
(spec section 4.1). -/
def reachable : IngestStatus → IngestStatus → Bool
  | .uploading, n => n = .processing || n = .error
  | .processing, n => n = .chunking || n = .error
  | .chunking, n => n = .embedding || n = .error
  | .embedding, n => n = .ready || n = .error
  | .ready, _ => false
  | .error, _ => false

/-- Modelled from the spec: `advance(id, nextStatus, progress?, error?)`
restricted to the status field (spec section 4.1): setting an error message
forces the status to `error` (only from a non-terminal state, since no
transition leaves a terminal state); otherwise the requested status must be
reachable from the current one, else the call fails with
`InvalidTransition`. -/
def advance (cur nextStatus : IngestStatus) (errMsg : Option String) :
    Except String IngestStatus :=
  if errMsg.isSome then
    if isTerminal cur then Except.error "InvalidTransition"
    else Except.ok IngestStatus.error
  else if reachable cur nextStatus then Except.ok nextStatus
  else Except.error "InvalidTransition"

/-- Modelled from the spec: the status a document is left in after an
`advance` call — the new status on success, the unchanged current status
when the call fails (spec section 8: on `InvalidTransition` the state
remains unchanged). -/
def applyAdvance (cur nextStatus : IngestStatus) (errMsg : Option String) :
    IngestStatus :=
  match advance cur nextStatus errMsg with
  | .ok s => s
  | .error _ => cur

/-! ## Scenario inputs -/

/-- The single freshly uploaded document of the poller scenarios of spec
section 8. -/
def pollScenarioDoc : Doc :=
  { id := "doc1", name := "policy.pdf", mime := "pdf", size := 5,
    uploadedAt := 0, status := "uploading", progress := 0, error := none }

/-- Fetch outcomes for the early-completion scenario: ticks 1 and 2 observe
`uploading`, tick 3 observes `ready`; more outcomes are available but a
correct poller must not consume them. -/
def readyAtTickThree : List FetchResult :=
  [FetchResult.ok "uploading" none, FetchResult.ok "uploading" none,
   FetchResult.ok "ready" none, FetchResult.ok "ready" none,
   FetchResult.ok "ready" none]

/-- Fetch outcomes for the timeout scenario: `processing` on every tick,
with more outcomes available than the attempt budget allows. -/
def stuckResults : List FetchResult :=
  List.replicate 40 (FetchResult.ok "processing" none)

/-- A file passing both upload checks (spec section 8 upload scenario). -/
def goodPdf : UFile :=
  { name := "policy.pdf", ftype := "application/pdf", size := 1000 }

/-- A file of a disallowed type (spec section 8 upload scenario). -/
def badDocx : UFile :=
  { name := "report.docx", ftype := "application/msword", size := 1000 }

/-! ## Helper lemmas -/

lemma runPoll_of_active_eq_false (documentId : String) (s : PollState)
    (rs : List FetchResult) (h : s.active = false) :
    runPoll documentId s rs = (s, 0) := by
  cases rs with
  | nil => rfl
  | cons r rs => simp [runPoll, h]

lemma pollTick_ok_nonterminal (documentId st : String) (err : Option String)
    (s : PollState) (h : ¬(st = "ready" ∨ st = "error")) :
    pollTick documentId s (FetchResult.ok st err) =
      { pollCount := s.pollCount + 1
        docs := s.docs.map (pollUpdateDoc documentId st err)
        active := decide (s.pollCount + 1 < maxPolls) } := by
  simp [pollTick, h]

lemma runPoll_count_le (documentId : String) (rs : List FetchResult) :
    ∀ s : PollState, s.active = true → s.pollCount < maxPolls →
      (runPoll documentId s rs).2 ≤ maxPolls - s.pollCount := by
  induction rs with
  | nil => intro s _ _; simp [runPoll]
  | cons r rs ih =>
    intro s hact hcnt
    simp only [runPoll, hact, if_true]
    cases r with
    | ok st err =>
      by_cases hterm : st = "ready" ∨ st = "error"
      · have h2 : (pollTick documentId s (FetchResult.ok st err)).active = false := by
          simp [pollTick, hterm]
        rw [runPoll_of_active_eq_false _ _ _ h2]
        omega
      · rw [pollTick_ok_nonterminal _ _ _ _ hterm]
        by_cases hc : s.pollCount + 1 < maxPolls
        · have h2 := ih
            { pollCount := s.pollCount + 1
              docs := s.docs.map (pollUpdateDoc documentId st err)
              active := decide (s.pollCount + 1 < maxPolls) }
            (by simp [hc]) (by simpa using hc)
          simp only at h2
          omega
        · rw [runPoll_of_active_eq_false _ _ _ (by simp [hc])]
          omega
    | httpError =>
      rw [runPoll_of_active_eq_false _ _ _ (by simp [pollTick])]
      omega
    | networkError =>
      rw [runPoll_of_active_eq_false _ _ _ (by simp [pollTick])]
      omega

/-! ## Claims -/

/-- Claim C1, corrected. As stated the claim is false: a poll tick whose
fetch throws is NOT counted against the attempt budget and polling does NOT
continue. Amended: a tick whose status fetch fails (thrown network error or
non-ok server response) is silently skipped — the document list and the
attempt counter are left unchanged and nothing is surfaced — but no further
tick is scheduled, so the polling session aborts immediately. -/
theorem C1_fetch_failure_skipped_and_aborts (documentId : String)
    (s : PollState) (r : FetchResult)
    (h : r = FetchResult.networkError ∨ r = FetchResult.httpError) :
    (pollTick documentId s r).docs = s.docs ∧
    (pollTick documentId s r).pollCount = s.pollCount ∧
    (pollTick documentId s r).active = false := by
  rcases h with h | h <;> subst h <;> exact ⟨rfl, rfl, rfl⟩

/-- Claim C1, witness for the amended theorem at a concrete input. -/
theorem C1_fetch_failure_witness :
    (pollTick "doc1" (initPollState [pollScenarioDoc])
        FetchResult.networkError).docs = [pollScenarioDoc] ∧
    (pollTick "doc1" (initPollState [pollScenarioDoc])
        FetchResult.networkError).pollCount = 0 ∧
    (pollTick "doc1" (initPollState [pollScenarioDoc])
        FetchResult.networkError).active = false :=
  C1_fetch_failure_skipped_and_aborts "doc1" (initPollState [pollScenarioDoc])
    FetchResult.networkError (Or.inl rfl)

/-- Claim C1, counterexample to the claim as stated: on a session with its
whole attempt budget remaining, a tick whose fetch throws leaves the attempt
counter at 0 (the tick is not counted) and schedules no further tick (the
session does not continue), although 0 is far below `maxPolls`. -/
theorem C1_counterexample_fetch_failure_not_counted :
    (pollTick "doc2" (initPollState []) FetchResult.networkError).pollCount = 0 ∧
    (pollTick "doc2" (initPollState []) FetchResult.networkError).active = false ∧
    0 < maxPolls :=
  ⟨rfl, rfl, by decide⟩

/-- Claim C2: a polling session issues at most `maxPolls = 30` status
fetches no matter what outcomes the fetches produce, and consecutive
fetches are spaced exactly `pollIntervalMs = 10000` ms apart (the fetch
after fetch k + 1 fires one fixed interval later). -/
theorem C2_fixed_interval_and_attempt_budget (documentId : String)
    (docs : List Doc) (rs : List FetchResult) (k : Nat) :
    (runPoll documentId (initPollState docs) rs).2 ≤ maxPolls ∧
    fetchTimeMs (k + 2) - fetchTimeMs (k + 1) = pollIntervalMs := by
  constructor
  · have h := runPoll_count_le documentId rs (initPollState docs) rfl
      (by norm_num [initPollState, maxPolls])
    simpa [initPollState] using h
  · simp only [fetchTimeMs, Nat.add_sub_cancel, pollIntervalMs]
    omega

/-- Claim C10: a poll tick that receives a non-ok HTTP response (for
example a 404 after the document was deleted mid-flight) leaves the
document list unchanged, does not touch the attempt counter, and schedules
no further tick, so the rest of the session performs no fetch at all — the
session ends silently. -/
theorem C10_http_error_stops_polling (documentId : String) (s : PollState)
    (rs : List FetchResult) :
    (pollTick documentId s FetchResult.httpError).docs = s.docs ∧
    (pollTick documentId s FetchResult.httpError).pollCount = s.pollCount ∧
    (pollTick documentId s FetchResult.httpError).active = false ∧
    runPoll documentId (pollTick documentId s FetchResult.httpError) rs =
      (pollTick documentId s FetchResult.httpError, 0) :=
  ⟨rfl, rfl, rfl, runPoll_of_active_eq_false _ _ _ rfl⟩

/-- Claim C3: any tick that fetches a terminal status (`ready` or `error`)
updates the document list and schedules no further tick; and in the
scenario where the document is seen `uploading` on ticks 1 and 2 and
`ready` on tick 3, the session issues exactly 3 fetches, ends with the
document `ready`, and leaves no tick scheduled. -/
theorem C3_terminal_stops_polling :
    (∀ (documentId st : String) (err : Option String) (s : PollState),
      st = "ready" ∨ st = "error" →
        (pollTick documentId s (FetchResult.ok st err)).active = false ∧
        (pollTick documentId s (FetchResult.ok st err)).docs =
          s.docs.map (pollUpdateDoc documentId st err)) ∧
    (runPoll "doc1" (initPollState [pollScenarioDoc]) readyAtTickThree).2 = 3 ∧
    ((runPoll "doc1" (initPollState [pollScenarioDoc])
        readyAtTickThree).1.docs.map Doc.status = ["ready"]) ∧
    (runPoll "doc1" (initPollState [pollScenarioDoc])
        readyAtTickThree).1.active = false := by
  refine ⟨?_, by decide, by decide, by decide⟩
  intro documentId st err s h
  constructor <;> simp [pollTick, h]

/-- Claim C3, witness for the universally quantified part at a concrete
terminal fetch. -/
theorem C3_terminal_stops_witness :
    (pollTick "doc9" (initPollState []) (FetchResult.ok "ready" none)).active
      = false :=
  (C3_terminal_stops_polling.1 "doc9" "ready" none (initPollState [])
    (Or.inl rfl)).1

/-- Claim C4, counterexample to the claim as stated: in the stuck scenario
the session issues its 30th and last fetch at `fetchTimeMs 30 = 290000` ms
— 290 simulated seconds, not the claimed 300 — because the first tick fires
immediately and the 30 ticks span only 29 ten-second intervals. -/
theorem C4_counterexample_stop_time :
    (runPoll "doc1" (initPollState [pollScenarioDoc]) stuckResults).2 =
      maxPolls ∧
    fetchTimeMs maxPolls = 290000 ∧ 290000 ≠ 300 * 1000 := by
  exact ⟨by decide, by decide, by decide⟩

/-- Claim C4, amended: a document whose fetched status is `processing` on
every tick exhausts the attempt budget — exactly `maxPolls = 30` fetches,
the last issued 290 simulated seconds after the session start — and the
session then stops silently with the document still `processing` locally
(no error state or message injected). -/
theorem C4_timeout_scenario :
    (runPoll "doc1" (initPollState [pollScenarioDoc]) stuckResults).2 =
      maxPolls ∧
    ((runPoll "doc1" (initPollState [pollScenarioDoc])
        stuckResults).1.docs.map Doc.status = ["processing"]) ∧
    ((runPoll "doc1" (initPollState [pollScenarioDoc])
        stuckResults).1.docs.map Doc.error = [none]) ∧
    (runPoll "doc1" (initPollState [pollScenarioDoc])
        stuckResults).1.active = false ∧
    fetchTimeMs maxPolls = 290 * 1000 := by
  exact ⟨by decide, by decide, by decide, by decide, by decide⟩

/-- Claim C5, counterexample to the claim as stated: the initial-load
mapping copies the payload error field verbatim, so a `/documents` payload
entry with status `processing` and an error message present yields a local
document violating the invariant (error set while status is not `error`). -/
theorem C5_counterexample_invariant :
    ¬ docStateInvariant (mapServerDoc
      { id := "doc1", filename := "a.txt", size := 5, uploaded_at := 0,
        status := "processing", error := some "boom" }) := by
  decide

/-- Claim C5, amended: every client-side update establishes the invariant
(error set iff status `error`; progress 100 iff status `ready`) on each
document it touches, under the preconditions that actually hold on the
code paths — the fetched payload itself relates its error field and status
that way (initial load and poll tick), the upload-success update is applied
to a freshly created document, and the upload-failure update is applied to
a document whose progress is not yet 100 (freshly created documents have
progress 0). -/
theorem C5_invariant_preserved :
    (∀ p : ServerDocPayload, (p.error.isSome ↔ p.status = "error") →
      docStateInvariant (mapServerDoc p)) ∧
    (∀ (now : Nat) (newId : String) (f : UFile),
      docStateInvariant (mkUploadDoc now newId f)) ∧
    (∀ (backendId : Option String) (now : Nat) (newId : String) (f : UFile),
      docStateInvariant (uploadSuccessUpdate backendId (mkUploadDoc now newId f))) ∧
    (∀ (msg : String) (d : Doc), d.progress ≠ 100 →
      docStateInvariant (uploadFailureUpdate msg d)) ∧
    (∀ (documentId st : String) (err : Option String) (d : Doc),
      (err.isSome ↔ st = "error") → d.id = documentId →
      docStateInvariant (pollUpdateDoc documentId st err d)) := by
  refine ⟨?_, ?_, ?_, ?_, ?_⟩
  · intro p hp
    refine ⟨by simpa [mapServerDoc] using hp, ?_⟩
    simp only [mapServerDoc]
    by_cases h : p.status = "ready" <;> simp [h]
  · intro now newId f
    simp [docStateInvariant, mkUploadDoc]
  · intro backendId now newId f
    simp [docStateInvariant, uploadSuccessUpdate, mkUploadDoc]
  · intro msg d hd
    simp [docStateInvariant, uploadFailureUpdate, hd]
  · intro documentId st err d hp hid
    refine ⟨by simpa [pollUpdateDoc, hid] using hp, ?_⟩
    simp only [pollUpdateDoc, hid, if_pos]
    by_cases h : st = "ready" <;> simp [h]

/-- Claim C5, witness for the amended theorem: a successful poll tick
observing `ready` with no payload error leaves the touched document
satisfying the invariant. -/
theorem C5_invariant_witness :
    docStateInvariant (pollUpdateDoc "doc1" "ready" none
      { id := "doc1", name := "a.pdf", mime := "pdf", size := 5,
        uploadedAt := 0, status := "processing", progress := 75,
        error := none }) :=
  C5_invariant_preserved.2.2.2.2 "doc1" "ready" none _ (by decide) rfl

/-- Claim C6, counterexample to the claim as stated: when the drop contains
any dropzone-rejected file, `onDrop` discards the whole batch — here a
valid PDF that passes both checks is not forwarded because a `.docx` in the
same drop was rejected. -/
theorem C6_counterexample_valid_file_dropped :
    (validateFile goodPdf).isOk = true ∧
    (onDrop [goodPdf] [badDocx]).1 = [] := by
  exact ⟨by decide, by decide⟩

/-- Claim C6, amended: a file failing the type or size check is never
forwarded to the upload operation (so no Document record is created for it)
and a validation error message is set; a file passing both checks is
forwarded provided no file of the same drop was rejected by the dropzone —
a drop containing any rejected file is discarded entirely with a generic
error message. -/
theorem C6_upload_validation (acceptedFiles rejectedFiles : List UFile)
    (f : UFile) :
    (f ∈ acceptedFiles → (validateFile f).isOk = false →
      f ∉ (onDrop acceptedFiles rejectedFiles).1 ∧
      (onDrop acceptedFiles rejectedFiles).2.isSome = true) ∧
    (rejectedFiles = [] → f ∈ acceptedFiles → (validateFile f).isOk = true →
      f ∈ (onDrop acceptedFiles rejectedFiles).1) := by
  constructor
  · intro hmem hbad
    by_cases hrej : rejectedFiles.length > 0
    · simp [onDrop, hrej]
    · have hmsg : ∃ m, validationMessage (validateFile f) = some m := by
        cases hv : validateFile f with
        | error m => exact ⟨m, by simp [validationMessage]⟩
        | ok u => rw [hv] at hbad; simp [Except.isOk, Except.toBool] at hbad
      rcases hmsg with ⟨m, hm⟩
      constructor
      · simp only [onDrop, if_neg hrej]
        intro hcontra
        have hok := (List.mem_filter.mp hcontra).2
        rw [hbad] at hok
        exact Bool.false_ne_true hok
      · simp only [onDrop, if_neg hrej]
        have hne : (acceptedFiles.filterMap
            fun g => validationMessage (validateFile g)) ≠ [] :=
          List.ne_nil_of_mem (List.mem_filterMap.mpr ⟨f, hmem, hm⟩)
        exact Option.isSome_iff_ne_none.mpr
          (fun hn => hne (List.getLast?_eq_none_iff.mp hn))
  · intro hrej hmem hok
    simp only [onDrop, hrej, List.length_nil, gt_iff_lt, Nat.lt_irrefl,
      if_false]
    exact List.mem_filter.mpr ⟨hmem, hok⟩

/-- Claim C6, witness for the amended theorem: a lone `.docx` passed to the
validation filter is not forwarded and leaves an error message set. -/
theorem C6_upload_validation_witness :
    badDocx ∉ (onDrop [badDocx] []).1 ∧
    (onDrop [badDocx] []).2.isSome = true :=
  (C6_upload_validation [badDocx] [] badDocx).1 (by decide) (by decide)

/-- Claim C7: the per-document update of a successful poll tick touches only
the entry whose id equals the polled document id — any other document is
returned unchanged, the matching one receives exactly the fetched status
and error and the heuristic progress — and the new document list of the tick is
the pointwise map of that update, so sessions for different ids are
independent. -/
theorem C7_poll_frame_property (documentId st : String) (err : Option String)
    (s : PollState) (d : Doc) :
    (d.id ≠ documentId → pollUpdateDoc documentId st err d = d) ∧
    (d.id = documentId → pollUpdateDoc documentId st err d =
      { d with status := st, error := err,
               progress := if st = "ready" then 100 else 75 }) ∧
    (pollTick documentId s (FetchResult.ok st err)).docs =
      s.docs.map (pollUpdateDoc documentId st err) := by
  refine ⟨?_, ?_, ?_⟩
  · intro h; simp [pollUpdateDoc, h]
  · intro h; simp [pollUpdateDoc, h]
  · by_cases hterm : st = "ready" ∨ st = "error" <;> simp [pollTick, hterm]

/-- Claim C7, witness: a poll tick for `doc1` leaves a document with id
`doc2` unchanged. -/
theorem C7_poll_frame_witness :
    pollUpdateDoc "doc1" "ready" none
      { id := "doc2", name := "b.txt", mime := "txt", size := 3,
        uploadedAt := 0, status := "processing", progress := 50,
        error := none } =
      { id := "doc2", name := "b.txt", mime := "txt", size := 3,
        uploadedAt := 0, status := "processing", progress := 50,
        error := none } :=
  (C7_poll_frame_property "doc1" "ready" none (initPollState []) _).1
    (by decide)

/-- Claim C8: whatever the outcome of the chat request — success, server
error or network failure — `handleSendMessage` appends exactly one
assistant message after the user message and clears the loading flag. -/
theorem C8_chat_appends_one_assistant_message (message : String)
    (r : ChatResult) (s : ChatState) :
    ∃ a : ChatMsg,
      (handleSendMessage message r s).messages =
        s.messages ++ [userChatMsg message, a] ∧
      a.mtype = "assistant" ∧
      (handleSendMessage message r s).isLoading = false := by
  cases r with
  | success answer sources =>
    refine ⟨{ mtype := "assistant", content := answer,
              sources := some sources }, ?_, rfl, rfl⟩
    simp [handleSendMessage]
  | serverError errMsg =>
    refine ⟨{ mtype := "assistant"
              content :=
                errMsg.getD "Sorry, I encountered an error. Please try again."
              sources := none }, ?_, rfl, rfl⟩
    simp [handleSendMessage]
  | networkFailure =>
    refine ⟨{ mtype := "assistant"
              content :=
                "Sorry, I couldn\x27t connect to the server. Please try again."
              sources := none }, ?_, rfl, rfl⟩
    simp [handleSendMessage]

/-- Claim C9: the terminal states of the spec-modelled server ingestion
state machine are absorbing — from `ready` or `error`, `advance` to any
requested status (with or without an error message) fails with
`InvalidTransition` and the document status is left unchanged. -/
theorem C9_terminal_states_absorbing (cur nextStatus : IngestStatus)
    (errMsg : Option String) (h : isTerminal cur = true) :
    advance cur nextStatus errMsg = Except.error "InvalidTransition" ∧
    applyAdvance cur nextStatus errMsg = cur := by
  have hadv : advance cur nextStatus errMsg =
      Except.error "InvalidTransition" := by
    cases errMsg <;> cases cur <;> simp_all [advance, isTerminal, reachable]
  exact ⟨hadv, by simp [applyAdvance, hadv]⟩

/-- Claim C9, witness: `advance` from `ready` towards `chunking` fails and
leaves the status at `ready`. -/
theorem C9_terminal_states_witness :
    advance IngestStatus.ready IngestStatus.chunking none =
      Except.error "InvalidTransition" ∧
    applyAdvance IngestStatus.ready IngestStatus.chunking none =
      IngestStatus.ready :=
  C9_terminal_states_absorbing IngestStatus.ready IngestStatus.chunking none
    (by decide)
